import Mathlib

/-!
Verification of the FAT32 filesystem driver (src/src/fat32.c).

The driver is shallowly embedded: the on-disk state is a map from cluster
numbers to typed cluster contents plus the boot-sector bytes, the driver
cache is the pair of the FAT mirror and the scratch directory buffer, and
each CRUD operation is a pure function from (driver state, disk, request)
to (status, driver state, disk).  Machine integers are modelled as `Nat`
with explicit `% 2 ^ w` where the C code masks or splits words.
-/

namespace Fat32

/-- Modelled from the spec: the constants of the missing header
`header/filesystem/fat32.h` (block 0 holds the 512-byte signature, four
blocks per cluster, the FAT lives at cluster 1, the root at cluster 2,
reserved sentinel values for clusters 0 and 1, `Free` is the all-zero
entry and `EndOfChain` a high sentinel). -/
def BLOCK_SIZE : Nat := 512

def CLUSTER_BLOCK_COUNT : Nat := 4

def CLUSTER_SIZE : Nat := BLOCK_SIZE * CLUSTER_BLOCK_COUNT

/-- Modelled from the spec: the FAT is one cluster of 32-bit entries, one
entry per cluster. -/
def CLUSTER_MAP_SIZE : Nat := 512

def BOOT_SECTOR : Nat := 0

def FAT_CLUSTER_NUMBER : Nat := 1

def ROOT_CLUSTER_NUMBER : Nat := 2

def CLUSTER_0_VALUE : Nat := 0x0FFFFFF0

def CLUSTER_1_VALUE : Nat := 0x0FFFFFFF

def FAT32_FAT_EMPTY_ENTRY : Nat := 0x00000000

def FAT32_FAT_END_OF_FILE : Nat := 0x0FFFFFF8

def ATTR_SUBDIRECTORY : Nat := 0x10

def UATTR_NOT_EMPTY : Nat := 0x0A

/-- One `struct FAT32DirectoryEntry`: 8 name bytes, 3 extension bytes,
one attribute byte (`attr` models the C field `attribute`, a Lean
keyword), one user-attribute byte, the split 16-bit halves of the
starting cluster number, and the 32-bit file size. -/
structure DirEntry where
  name : List Nat
  ext : List Nat
  attr : Nat
  user_attribute : Nat
  cluster_low : Nat
  cluster_high : Nat
  filesize : Nat
  deriving DecidableEq, Repr

/-- The all-zero directory entry (C zero initialisation). -/
def zeroEntry : DirEntry :=
  { name := List.replicate 8 0, ext := List.replicate 3 0, attr := 0,
    user_attribute := 0, cluster_low := 0, cluster_high := 0, filesize := 0 }

/-- Number of `FAT32DirectoryEntry` slots in one `FAT32DirectoryTable`:
`sizeof(struct FAT32DirectoryTable) / sizeof(struct FAT32DirectoryEntry)`,
the entries that fit in one cluster (a 32-byte entry, a 2048-byte cluster). -/
def directorySize : Nat := 64

/-- A zeroed `struct FAT32DirectoryTable` (C `= { 0 }`). -/
def zeroTable : List DirEntry := List.replicate directorySize zeroEntry

/-- One `struct FAT32DriverRequest`. -/
structure Request where
  buf : List Nat
  name : List Nat
  ext : List Nat
  parent_cluster_number : Nat
  buffer_size : Nat
  deriving DecidableEq, Repr

/-- Typed content of one disk cluster: a directory table, the serialized
FAT, or raw payload bytes. -/
inductive Cluster where
  | dirC (t : List DirEntry)
  | fatC (m : List Nat)
  | rawC (b : List Nat)
  deriving DecidableEq, Repr

/-- The block device: the boot-sector bytes (block 0, modelled as `Char`
byte values) and a total map from cluster numbers to cluster contents. -/
structure Disk where
  boot : List Char
  clusters : Nat → Cluster

/-- Functional update of one disk cluster (the effect of
`write_clusters(ptr, n, 1)`). -/
def Disk.setCluster (d : Disk) (n : Nat) (c : Cluster) : Disk :=
  { d with clusters := fun m => if m = n then c else d.clusters m }

/-- Reinterpret a cluster as a directory table, as `read_clusters` into
`dir_table_buf` does; a non-directory cluster decodes to garbage,
modelled as the zero table. -/
def asDirTable : Cluster → List DirEntry
  | Cluster.dirC t => t
  | _ => zeroTable

/-- Reinterpret a cluster as the FAT, as `read_clusters` into
`fat_table` does. -/
def asFat : Cluster → List Nat
  | Cluster.fatC m => m
  | _ => List.replicate CLUSTER_MAP_SIZE 0

/-- Reinterpret a cluster as raw payload bytes, as `read_clusters` into a
caller buffer does. -/
def asRaw : Cluster → List Nat
  | Cluster.rawC b => b
  | _ => List.replicate CLUSTER_SIZE 0

/-- The mutable `struct FAT32DriverState`: the cached FAT and the scratch
directory-table buffer. -/
structure DriverState where
  fat_table : List Nat
  dir_table_buf : List DirEntry
  deriving DecidableEq, Repr

/-- Result of an operation that can write to disk. -/
structure OpResult where
  status : Int
  state : DriverState
  disk : Disk

/-- Result of `read`, which additionally fills the caller's buffer; `out`
is the sequence of bytes the copy loop produced, cluster by cluster. -/
structure ReadResult where
  status : Int
  state : DriverState
  disk : Disk
  out : List Nat

/-- The fixed 512-byte boot signature `fs_signature` (five 16-byte ASCII
rows, zero padding, and the final bytes `O` `k`). -/
def fs_signature : List Char :=
  ("Course          " ++ "Designed by     " ++ "Lab Sister ITB  " ++
   "Made with <3    " ++ "-----------2024\n").toList ++
  List.replicate 430 (Char.ofNat 0) ++ ['O', 'k']

/-- Source `cluster_to_lba`. -/
def cluster_to_lba (cluster : Nat) : Nat := cluster * CLUSTER_BLOCK_COUNT

/-- Source `init_directory_table`: overwrite slot 0 of `dir_table` with a
subdirectory descriptor whose split cluster fields hold
`parent_dir_cluster` and whose name is the 8 bytes copied from `name`
(the C `& 0xFFFF` masks and the 16-bit shift are the `% 2 ^ 16` splits). -/
def init_directory_table (dir_table : List DirEntry) (name : List Nat)
    (parent_dir_cluster : Nat) : List DirEntry :=
  let e0 := dir_table.getD 0 zeroEntry
  dir_table.set 0
    { e0 with
      cluster_low := parent_dir_cluster % 65536,
      cluster_high := parent_dir_cluster / 65536 % 65536,
      user_attribute := UATTR_NOT_EMPTY,
      attr := ATTR_SUBDIRECTORY,
      name := name.take 8 }

/-- Source `is_empty_storage`: read block 0 and report whether `memcmp`
against `fs_signature` found any inequality. -/
def is_empty_storage (disk : Disk) : Bool := disk.boot ≠ fs_signature

/-- The 8 name bytes create_fat32 passes for the root directory.  The C
call copies 8 bytes from the 5-byte literal "root"; the 3 bytes past the
literal are unspecified in C and are modelled as zero. -/
def rootNameBytes : List Nat := [114, 111, 111, 116, 0, 0, 0, 0]

/-- Source `create_fat32`: write the signature to block 0; set FAT
entries 0, 1 and the root to their sentinels and every entry from index 3
up to `Free`; persist the FAT at cluster 1; build a zeroed root directory
table, initialise its slot 0 with the root as its own parent, and persist
it at the root cluster. -/
def create_fat32 (st : DriverState) (disk : Disk) : DriverState × Disk :=
  let disk1 := { disk with boot := fs_signature }
  let fat0 :=
    ((st.fat_table.set 0 CLUSTER_0_VALUE).set 1 CLUSTER_1_VALUE).set
      ROOT_CLUSTER_NUMBER FAT32_FAT_END_OF_FILE
  let fat1 := (List.range' 3 (CLUSTER_MAP_SIZE - 3)).foldl
    (fun f i => f.set i FAT32_FAT_EMPTY_ENTRY) fat0
  let disk2 := disk1.setCluster FAT_CLUSTER_NUMBER (Cluster.fatC fat1)
  let root := init_directory_table zeroTable rootNameBytes ROOT_CLUSTER_NUMBER
  let disk3 := disk2.setCluster ROOT_CLUSTER_NUMBER (Cluster.dirC root)
  ({ st with fat_table := fat1 }, disk3)

/-- Source `initialize_filesystem_fat32`: format an empty device,
otherwise load the persisted FAT (cluster 1) into the cache. -/
def initialize_filesystem_fat32 (st : DriverState) (disk : Disk) :
    DriverState × Disk :=
  if is_empty_storage disk then create_fat32 st disk
  else ({ st with fat_table := asFat (disk.clusters FAT_CLUSTER_NUMBER) }, disk)

/-- Source `ceil_div` on the non-negative values the driver passes. -/
def ceil_div (a b : Nat) : Nat := a / b + (if a % b ≠ 0 then 1 else 0)

/-- The per-slot match test shared by all four operations:
`!memcmp(entry.name, request.name, 8) && !memcmp(entry.ext, request.ext, 3)`. -/
def entryMatches (e : DirEntry) (req : Request) : Bool :=
  (e.name.take 8 == req.name.take 8) && (e.ext.take 3 == req.ext.take 3)

/-- The entry scan shared by all four operations: the first index
`i < directorySize` (the loop starts at slot 0) whose name and extension
bytes equal the request's. -/
def findMatchIdx (table : List DirEntry) (req : Request) : Option Nat :=
  (List.range directorySize).find? fun i =>
    entryMatches (table.getD i zeroEntry) req

/-- Reassemble a split cluster number:
`cluster_low | (cluster_high << 16)`, which for the 16-bit fields is
`low + high * 2 ^ 16`. -/
def clusterOf (e : DirEntry) : Nat := e.cluster_low + e.cluster_high * 65536

/-- Source `read_directory`. -/
def read_directory (st : DriverState) (disk : Disk) (req : Request) :
    OpResult :=
  let table := asDirTable (disk.clusters req.parent_cluster_number)
  let st1 := { st with dir_table_buf := table }
  if (table.getD 0 zeroEntry).attr ≠ ATTR_SUBDIRECTORY then
    ⟨-1, st1, disk⟩
  else
    match findMatchIdx table req with
    | some i =>
      let e := table.getD i zeroEntry
      if e.attr ≠ ATTR_SUBDIRECTORY then ⟨1, st1, disk⟩
      else
        ⟨0, { st1 with dir_table_buf := asDirTable (disk.clusters (clusterOf e)) },
          disk⟩
    | none => ⟨2, st1, disk⟩

/-- The `do { copy; advance; } while (cluster != END_OF_FILE)` loop of
`read`, fuelled (the C loop does not terminate on a malformed FAT); it
returns the copied clusters in order. -/
def readChainLoop (fat : List Nat) (disk : Disk) (cluster : Nat) :
    Nat → List (List Nat)
  | 0 => []
  | fuel + 1 =>
    let block := asRaw (disk.clusters cluster)
    let next := fat.getD cluster 0
    if next = FAT32_FAT_END_OF_FILE then [block]
    else block :: readChainLoop fat disk next fuel

/-- Source `read`. -/
def read (st : DriverState) (disk : Disk) (req : Request) : ReadResult :=
  let table := asDirTable (disk.clusters req.parent_cluster_number)
  let st1 := { st with dir_table_buf := table }
  if (table.getD 0 zeroEntry).attr ≠ ATTR_SUBDIRECTORY then
    ⟨-1, st1, disk, []⟩
  else
    match findMatchIdx table req with
    | some i =>
      let e := table.getD i zeroEntry
      if e.attr = ATTR_SUBDIRECTORY then ⟨1, st1, disk, []⟩
      else if req.buffer_size < e.filesize then ⟨2, st1, disk, []⟩
      else
        ⟨0, st1, disk,
          (readChainLoop st1.fat_table disk (clusterOf e) CLUSTER_MAP_SIZE).flatten⟩
    | none => ⟨3, st1, disk, []⟩

/-- The cluster-sized slice of the caller's buffer starting at chunk `i`
(`request.buf + i * CLUSTER_SIZE`). -/
def bufChunk (buf : List Nat) (i : Nat) : List Nat :=
  (buf.drop (i * CLUSTER_SIZE)).take CLUSTER_SIZE

/-- The allocation loop of `write` over the collected free-cluster list:
each claimed cluster's FAT entry is pointed at the next claimed cluster
(the last at `EndOfChain`) and the matching payload chunk is written into
it. -/
def allocChain (fat : List Nat) (disk : Disk) (buf : List Nat) (i : Nat) :
    List Nat → List Nat × Disk
  | [] => (fat, disk)
  | [c] =>
    (fat.set c FAT32_FAT_END_OF_FILE,
     disk.setCluster c (Cluster.rawC (bufChunk buf i)))
  | c :: c2 :: rest =>
    allocChain (fat.set c c2) (disk.setCluster c (Cluster.rawC (bufChunk buf i)))
      buf (i + 1) (c2 :: rest)

/-- All cluster numbers whose FAT entry is `Free`, in ascending order:
the collection scan of `write` (its loop starts at index 0). -/
def freeClusters (fat : List Nat) : List Nat :=
  (List.range CLUSTER_MAP_SIZE).filter fun i =>
    fat.getD i 0 == FAT32_FAT_EMPTY_ENTRY

/-- Source `write`.  Note that the C code stores the new entry at
`table[directory_size]`, one slot past the end of the table, so the store
is out of bounds and the stored bytes are not part of the cluster that is
then persisted; `List.set` at the table's length models exactly that the
persisted table is unchanged. -/
def write (st : DriverState) (disk : Disk) (req : Request) : OpResult :=
  let table := asDirTable (disk.clusters req.parent_cluster_number)
  let st1 := { st with dir_table_buf := table }
  if (table.getD 0 zeroEntry).attr ≠ ATTR_SUBDIRECTORY then
    ⟨-1, st1, disk⟩
  else if (findMatchIdx table req).isSome then ⟨1, st1, disk⟩
  else
    let cluster_count := ceil_div req.buffer_size CLUSTER_SIZE
    let cluster_available :=
      ((List.range' 2 (CLUSTER_MAP_SIZE - 2)).filter fun i =>
        st.fat_table.getD i 0 == FAT32_FAT_EMPTY_ENTRY).length
    if cluster_available < cluster_count then ⟨-1, st1, disk⟩
    else
      let empty_cluster :=
        ((List.range' 2 (CLUSTER_MAP_SIZE - 2)).find? fun i =>
          st.fat_table.getD i 0 == FAT32_FAT_EMPTY_ENTRY).getD 0
      let new_entry : DirEntry :=
        { name := req.name.take 8, ext := req.ext.take 3,
          attr := if req.buffer_size = 0 then ATTR_SUBDIRECTORY else 0,
          user_attribute := UATTR_NOT_EMPTY,
          cluster_low := empty_cluster % 65536,
          cluster_high := empty_cluster / 65536 % 65536,
          filesize := req.buffer_size }
      let fd : List Nat × Disk :=
        if req.buffer_size = 0 then
          (st.fat_table.set empty_cluster FAT32_FAT_END_OF_FILE,
           disk.setCluster empty_cluster
             (Cluster.dirC
               (init_directory_table zeroTable req.name req.parent_cluster_number)))
        else
          allocChain st.fat_table disk req.buf 0
            ((freeClusters st.fat_table).take cluster_count)
      let table1 := table.set directorySize new_entry
      let disk1 :=
        ((fd.2.setCluster req.parent_cluster_number (Cluster.dirC table1)).setCluster
          FAT_CLUSTER_NUMBER (Cluster.fatC fd.1))
      ⟨0, { st1 with dir_table_buf := table1, fat_table := fd.1 }, disk1⟩

/-- The chain-freeing `do { next = fat[c]; fat[c] = Free; c = next; }
while (c != END_OF_FILE)` loop of `delete`, fuelled. -/
def freeChainLoop (fat : List Nat) (cluster : Nat) : Nat → List Nat
  | 0 => fat
  | fuel + 1 =>
    let next := fat.getD cluster 0
    let fat1 := fat.set cluster FAT32_FAT_EMPTY_ENTRY
    if next = FAT32_FAT_END_OF_FILE then fat1
    else freeChainLoop fat1 next fuel

/-- Source `delete`. -/
def delete (st : DriverState) (disk : Disk) (req : Request) : OpResult :=
  let table := asDirTable (disk.clusters req.parent_cluster_number)
  let st1 := { st with dir_table_buf := table }
  if (table.getD 0 zeroEntry).attr ≠ ATTR_SUBDIRECTORY then
    ⟨-1, st1, disk⟩
  else
    match findMatchIdx table req with
    | some i =>
      let entry := table.getD i zeroEntry
      if entry.attr = ATTR_SUBDIRECTORY ∧
          (List.range' 1 (directorySize - 1)).any (fun j =>
            ((asDirTable (disk.clusters (clusterOf entry))).getD j
              zeroEntry).user_attribute == UATTR_NOT_EMPTY) then
        ⟨2, st1, disk⟩
      else
        let table1 := table.set i
          { entry with
            user_attribute := 0,
            name := List.replicate 8 0,
            ext := List.replicate 3 0 }
        let fat1 := freeChainLoop st.fat_table (clusterOf entry) CLUSTER_MAP_SIZE
        let disk1 :=
          ((disk.setCluster req.parent_cluster_number
            (Cluster.dirC table1)).setCluster FAT_CLUSTER_NUMBER
            (Cluster.fatC fat1))
        ⟨0, { st1 with dir_table_buf := table1, fat_table := fat1 }, disk1⟩
    | none => ⟨1, st1, disk⟩

/-- A well-formed cluster chain in a FAT: the listed clusters are linked
consecutively and the last one's entry is the end-of-chain sentinel. -/
def isChain (fat : List Nat) : List Nat → Prop
  | [] => False
  | [c] => fat.getD c 0 = FAT32_FAT_END_OF_FILE
  | c :: c2 :: rest => fat.getD c 0 = c2 ∧ isChain fat (c2 :: rest)

/-- The all-zero driver state the kernel boots with (C `= { 0 }`). -/
def st0 : DriverState :=
  { fat_table := List.replicate CLUSTER_MAP_SIZE 0, dir_table_buf := zeroTable }

/-- An unformatted device: all-zero boot sector and clusters. -/
def freshDisk : Disk :=
  { boot := List.replicate BLOCK_SIZE (Char.ofNat 0),
    clusters := fun _ => Cluster.rawC (List.replicate CLUSTER_SIZE 0) }

/-- The FAT a freshly formatted device carries: the two reserved
sentinels, `EndOfChain` for the root, `Free` everywhere else (the value
`create_fat32` computes, spelled as an explicit list). -/
def fmtFat : List Nat :=
  CLUSTER_0_VALUE :: CLUSTER_1_VALUE :: FAT32_FAT_END_OF_FILE ::
    List.replicate (CLUSTER_MAP_SIZE - 3) 0

/-- The root directory table a freshly formatted device carries. -/
def rootTable : List DirEntry :=
  init_directory_table zeroTable rootNameBytes ROOT_CLUSTER_NUMBER

/-- Driver state of a freshly formatted device. -/
def fmtSt : DriverState := { fat_table := fmtFat, dir_table_buf := zeroTable }

/-- Disk contents of a freshly formatted device. -/
def fmtDisk : Disk :=
  { boot := fs_signature,
    clusters := fun n =>
      if n = FAT_CLUSTER_NUMBER then Cluster.fatC fmtFat
      else if n = ROOT_CLUSTER_NUMBER then Cluster.dirC rootTable
      else Cluster.rawC (List.replicate CLUSTER_SIZE 0) }

/-- Request writing the one-byte file `FILE1.TXT` under the root. -/
def reqFile1 : Request :=
  { buf := [1], name := [70, 73, 76, 69, 49, 0, 0, 0], ext := [84, 88, 84],
    parent_cluster_number := ROOT_CLUSTER_NUMBER, buffer_size := 1 }

/-- A directory table whose descriptor slot 0 carries the name `A` and a
parent back-reference to cluster 5. -/
def tableSlot0A : List DirEntry :=
  zeroTable.set 0
    { name := [65, 0, 0, 0, 0, 0, 0, 0], ext := [0, 0, 0],
      attr := ATTR_SUBDIRECTORY, user_attribute := UATTR_NOT_EMPTY,
      cluster_low := 5, cluster_high := 0, filesize := 0 }

/-- A formatted disk holding `tableSlot0A` at cluster 9. -/
def diskSlot0A : Disk :=
  { boot := fs_signature,
    clusters := fun n =>
      if n = 9 then Cluster.dirC tableSlot0A
      else Cluster.rawC (List.replicate CLUSTER_SIZE 0) }

/-- Request whose name and extension bytes equal slot 0 of `tableSlot0A`. -/
def reqNameA : Request :=
  { buf := [], name := [65, 0, 0, 0, 0, 0, 0, 0], ext := [0, 0, 0],
    parent_cluster_number := 9, buffer_size := 0 }

/-- Request whose name and extension are all zero bytes. -/
def reqZeroKey : Request :=
  { buf := [], name := List.replicate 8 0, ext := List.replicate 3 0,
    parent_cluster_number := ROOT_CLUSTER_NUMBER, buffer_size := 0 }

/-- A full FAT: the two reserved sentinels and every other cluster
allocated (no `Free` entry anywhere). -/
def fullFat : List Nat :=
  CLUSTER_0_VALUE :: CLUSTER_1_VALUE ::
    List.replicate (CLUSTER_MAP_SIZE - 2) FAT32_FAT_END_OF_FILE

/-- Driver state whose cached FAT is `fullFat`. -/
def stFull : DriverState := { fat_table := fullFat, dir_table_buf := zeroTable }

/-- Request creating the directory `DIR1` under the root. -/
def reqDir1 : Request :=
  { buf := [], name := [68, 73, 82, 49, 0, 0, 0, 0], ext := [0, 0, 0],
    parent_cluster_number := ROOT_CLUSTER_NUMBER, buffer_size := 0 }

/-- A one-cluster file entry `FILE1.TXT` of 5 bytes starting at cluster 3. -/
def fileEntry : DirEntry :=
  { name := [70, 73, 76, 69, 49, 0, 0, 0], ext := [84, 88, 84], attr := 0,
    user_attribute := UATTR_NOT_EMPTY, cluster_low := 3, cluster_high := 0,
    filesize := 5 }

/-- The root table holding `fileEntry` at slot 1. -/
def fileTable : List DirEntry := rootTable.set 1 fileEntry

/-- The formatted FAT with cluster 3 allocated as a one-cluster chain. -/
def fatFile : List Nat :=
  CLUSTER_0_VALUE :: CLUSTER_1_VALUE :: FAT32_FAT_END_OF_FILE ::
    FAT32_FAT_END_OF_FILE :: List.replicate (CLUSTER_MAP_SIZE - 4) 0

/-- Driver state with `fatFile` cached. -/
def fileSt : DriverState := { fat_table := fatFile, dir_table_buf := zeroTable }

/-- Disk holding `fileTable` in the root and the file's payload (bytes of
value 7) at cluster 3. -/
def fileDisk : Disk :=
  { boot := fs_signature,
    clusters := fun n =>
      if n = FAT_CLUSTER_NUMBER then Cluster.fatC fatFile
      else if n = ROOT_CLUSTER_NUMBER then Cluster.dirC fileTable
      else if n = 3 then Cluster.rawC (List.replicate CLUSTER_SIZE 7)
      else Cluster.rawC (List.replicate CLUSTER_SIZE 0) }

/-- Request reading (or deleting) `FILE1.TXT` with buffer capacity 5. -/
def reqRead5 : Request :=
  { buf := [], name := [70, 73, 76, 69, 49, 0, 0, 0], ext := [84, 88, 84],
    parent_cluster_number := ROOT_CLUSTER_NUMBER, buffer_size := 5 }

/-! Helper lemmas about list updates, the free-cluster scan and the two
fuelled chain loops. -/

theorem getD_set_self (l : List α) (i : Nat) (a d : α) (h : i < l.length) :
    (l.set i a).getD i d = a := by
  simp [List.getD_eq_getElem?_getD, List.getElem?_set_self', h]

theorem getD_set_ne (l : List α) (i j : Nat) (a d : α) (h : i ≠ j) :
    (l.set i a).getD j d = l.getD j d := by
  simp [List.getD_eq_getElem?_getD, List.getElem?_set_ne h]

theorem length_foldl_set (l : List Nat) (fat : List Nat) (v : Nat) :
    (l.foldl (fun f i => f.set i v) fat).length = fat.length := by
  induction l generalizing fat with
  | nil => rfl
  | cons x xs ih => rw [List.foldl_cons, ih, List.length_set]

theorem getD_foldl_set_not_mem (l : List Nat) (fat : List Nat) (v d j : Nat)
    (hj : j ∉ l) :
    (l.foldl (fun f i => f.set i v) fat).getD j d = fat.getD j d := by
  induction l generalizing fat with
  | nil => rfl
  | cons x xs ih =>
    have hxj : x ≠ j := fun h => hj (by simp [h])
    rw [List.foldl_cons, ih _ (fun h => hj (List.mem_cons_of_mem x h)),
      getD_set_ne _ _ _ _ _ hxj]

theorem getD_foldl_set_mem (l : List Nat) (fat : List Nat) (v d j : Nat)
    (hj : j ∈ l) (hlt : j < fat.length) :
    (l.foldl (fun f i => f.set i v) fat).getD j d = v := by
  induction l generalizing fat with
  | nil => cases hj
  | cons x xs ih =>
    rw [List.foldl_cons]
    by_cases hx : j ∈ xs
    · exact ih _ hx (by rw [List.length_set]; exact hlt)
    · have hjx : j = x := by
        rcases List.mem_cons.mp hj with h | h
        · exact h
        · exact absurd h hx
      subst hjx
      rw [getD_foldl_set_not_mem _ _ _ _ _ hx, getD_set_self _ _ _ _ hlt]

theorem mem_freeClusters {fat : List Nat} {c : Nat} :
    c ∈ freeClusters fat ↔
      c < CLUSTER_MAP_SIZE ∧ fat.getD c 0 = FAT32_FAT_EMPTY_ENTRY := by
  unfold freeClusters
  simp [List.mem_filter, List.mem_range]

theorem freeClusters_sorted (fat : List Nat) :
    (freeClusters fat).Sorted (· < ·) :=
  (List.sorted_lt_range CLUSTER_MAP_SIZE).sublist
    (List.filter_sublist (List.range CLUSTER_MAP_SIZE))

theorem freeClusters_nodup (fat : List Nat) : (freeClusters fat).Nodup :=
  (List.nodup_range CLUSTER_MAP_SIZE).filter _

theorem avail_le_freeClusters_length (fat : List Nat) :
    ((List.range' 2 (CLUSTER_MAP_SIZE - 2)).filter fun i =>
      fat.getD i 0 == FAT32_FAT_EMPTY_ENTRY).length ≤
      (freeClusters fat).length := by
  unfold freeClusters
  rw [List.range_eq_range']
  have h2 : List.range' 0 2 ++ List.range' 2 510 = List.range' 0 512 := by
    have h := List.range'_append 0 2 510 1
    simpa using h
  have h3 : (CLUSTER_MAP_SIZE : Nat) = 512 := rfl
  rw [h3]
  have h4 : List.range' 2 (512 - 2) = List.range' 2 510 := rfl
  rw [h4, ← h2, List.filter_append, List.length_append]
  exact Nat.le_add_left _ _

theorem isChain_set_of_not_mem (L : List Nat) (fat : List Nat) (c v : Nat)
    (hc : isChain fat L) (hnc : c ∉ L) : isChain (fat.set c v) L := by
  induction L with
  | nil => exact hc
  | cons x xs ih =>
    have hcx : c ≠ x := fun h => hnc (by simp [h])
    cases xs with
    | nil =>
      unfold isChain at hc ⊢
      rw [getD_set_ne _ _ _ _ _ hcx]
      exact hc
    | cons y ys =>
      unfold isChain at hc ⊢
      refine ⟨?_, ih hc.2 (fun h => hnc (List.mem_cons_of_mem x h))⟩
      rw [getD_set_ne _ _ _ _ _ hcx]
      exact hc.1

theorem allocChain_fat_not_mem (L : List Nat) :
    ∀ (fat : List Nat) (disk : Disk) (buf : List Nat) (i j d : Nat), j ∉ L →
      (allocChain fat disk buf i L).1.getD j d = fat.getD j d := by
  induction L with
  | nil => intro fat disk buf i j d _; rfl
  | cons c rest ih =>
    intro fat disk buf i j d hj
    have hcj : c ≠ j := fun h => hj (by simp [h])
    cases rest with
    | nil =>
      unfold allocChain
      exact getD_set_ne _ _ _ _ _ hcj
    | cons c2 rest2 =>
      unfold allocChain
      rw [ih _ _ _ _ _ _ (fun h => hj (List.mem_cons_of_mem c h)),
        getD_set_ne _ _ _ _ _ hcj]

theorem allocChain_fat_links (L : List Nat) :
    ∀ (fat : List Nat) (disk : Disk) (buf : List Nat) (i : Nat), L.Nodup →
      (∀ c ∈ L, c < fat.length) →
      (∀ idx, idx + 1 < L.length →
        (allocChain fat disk buf i L).1.getD (L.getD idx 0) 0 =
          L.getD (idx + 1) 0) ∧
      (∀ idx, idx + 1 = L.length →
        (allocChain fat disk buf i L).1.getD (L.getD idx 0) 0 =
          FAT32_FAT_END_OF_FILE) := by
  induction L with
  | nil =>
    intro fat disk buf i _ _
    exact ⟨fun idx h => by simp at h, fun idx h => by simp at h⟩
  | cons c rest ih =>
    intro fat disk buf i hn hlt
    cases rest with
    | nil =>
      refine ⟨fun idx h => by simp at h, fun idx h => ?_⟩
      have hidx : idx = 0 := by simpa using h
      subst hidx
      unfold allocChain
      simp only [List.getD_cons_zero]
      exact getD_set_self _ _ _ _ (hlt c (by simp))
    | cons c2 rest2 =>
      have hc : c ∉ c2 :: rest2 := (List.nodup_cons.mp hn).1
      obtain ⟨ih1, ih2⟩ := ih (fat.set c c2)
        (disk.setCluster c (Cluster.rawC (bufChunk buf i))) buf (i + 1)
        (List.nodup_cons.mp hn).2
        (by
          intro x hx
          rw [List.length_set]
          exact hlt x (List.mem_cons_of_mem c hx))
      refine ⟨fun idx h => ?_, fun idx h => ?_⟩
      · cases idx with
        | zero =>
          unfold allocChain
          simp only [List.getD_cons_zero, List.getD_cons_succ]
          rw [allocChain_fat_not_mem _ _ _ _ _ _ _ hc]
          exact getD_set_self _ _ _ _ (hlt c (by simp))
        | succ k =>
          unfold allocChain
          simp only [List.getD_cons_succ]
          exact ih1 k (by simp only [List.length_cons] at h ⊢; omega)
      · cases idx with
        | zero => simp at h
        | succ k =>
          unfold allocChain
          simp only [List.getD_cons_succ]
          exact ih2 k (by simp only [List.length_cons] at h ⊢; omega)

theorem readChainLoop_eq_map (L : List Nat) :
    ∀ (fat : List Nat) (disk : Disk) (fuel : Nat), isChain fat L →
      (∀ c ∈ L, c < CLUSTER_MAP_SIZE) → L.length ≤ fuel →
      readChainLoop fat disk (L.headD 0) fuel =
        L.map (fun c => asRaw (disk.clusters c)) := by
  induction L with
  | nil => intro fat disk fuel hc _ _; cases hc
  | cons c rest ih =>
    intro fat disk fuel hc hlt hfuel
    cases fuel with
    | zero => simp at hfuel
    | succ f =>
      cases rest with
      | nil =>
        unfold isChain at hc
        simp only [List.headD_cons, readChainLoop, List.map_cons, List.map_nil]
        rw [hc, if_pos rfl]
      | cons c2 rest2 =>
        unfold isChain at hc
        have hc2lt : c2 < CLUSTER_MAP_SIZE := hlt c2 (by simp)
        have hne : ¬ c2 = FAT32_FAT_END_OF_FILE := by
          intro h
          rw [h] at hc2lt
          exact absurd hc2lt (by decide)
        have ihh := ih fat disk f hc.2
          (fun x hx => hlt x (List.mem_cons_of_mem c hx))
          (by simp only [List.length_cons] at hfuel ⊢; omega)
        simp only [List.headD_cons] at ihh
        simp only [List.headD_cons, readChainLoop, List.map_cons]
        rw [hc.1, if_neg hne, ihh, List.map_cons]

theorem freeChainLoop_getD (L : List Nat) :
    ∀ (fat : List Nat) (fuel : Nat), isChain fat L → L.Nodup →
      (∀ c ∈ L, c < CLUSTER_MAP_SIZE) → fat.length = CLUSTER_MAP_SIZE →
      L.length ≤ fuel →
      (∀ c ∈ L, (freeChainLoop fat (L.headD 0) fuel).getD c 0 =
        FAT32_FAT_EMPTY_ENTRY) ∧
      (∀ j d, j ∉ L → (freeChainLoop fat (L.headD 0) fuel).getD j d =
        fat.getD j d) := by
  induction L with
  | nil => intro fat fuel hc _ _ _ _; cases hc
  | cons c rest ih =>
    intro fat fuel hc hn hlt hlen hfuel
    cases fuel with
    | zero => simp at hfuel
    | succ f =>
      cases rest with
      | nil =>
        unfold isChain at hc
        constructor
        · intro x hx
          have hx0 : x = c := by simpa using hx
          subst hx0
          simp only [List.headD_cons, freeChainLoop, hc, if_pos rfl]
          exact getD_set_self _ _ _ _ (by rw [hlen]; exact hlt x (by simp))
        · intro j d hj
          have hcj : c ≠ j := fun h => hj (by simp [h])
          simp only [List.headD_cons, freeChainLoop, hc, if_pos rfl]
          exact getD_set_ne _ _ _ _ _ hcj
      | cons c2 rest2 =>
        unfold isChain at hc
        have hcnot : c ∉ c2 :: rest2 := (List.nodup_cons.mp hn).1
        have hc2lt : c2 < CLUSTER_MAP_SIZE := hlt c2 (by simp)
        have hne : ¬ c2 = FAT32_FAT_END_OF_FILE := by
          intro h
          rw [h] at hc2lt
          exact absurd hc2lt (by decide)
        have hchain2 : isChain (fat.set c FAT32_FAT_EMPTY_ENTRY) (c2 :: rest2) :=
          isChain_set_of_not_mem _ _ _ _ hc.2 hcnot
        obtain ⟨ihm, ihn⟩ := ih (fat.set c FAT32_FAT_EMPTY_ENTRY) f hchain2
          (List.nodup_cons.mp hn).2
          (fun x hx => hlt x (List.mem_cons_of_mem c hx))
          (by rw [List.length_set]; exact hlen)
          (by simpa using Nat.le_of_succ_le_succ hfuel)
        simp only [List.headD_cons] at ihm ihn
        constructor
        · intro x hx
          simp only [List.headD_cons, freeChainLoop, hc.1, if_neg hne]
          rcases List.mem_cons.mp hx with hx0 | hx2
          · subst hx0
            rw [ihn x 0 hcnot]
            exact getD_set_self _ _ _ _ (by rw [hlen]; exact hlt x (by simp))
          · exact ihm x hx2
        · intro j d hj
          have hcj : c ≠ j := fun h => hj (by simp [h])
          simp only [List.headD_cons, freeChainLoop, hc.1, if_neg hne]
          rw [ihn j d (fun h => hj (List.mem_cons_of_mem c h)),
            getD_set_ne _ _ _ _ _ hcj]

theorem findMatchIdx_slot0 (table : List DirEntry) (req : Request)
    (h : entryMatches (table.getD 0 zeroEntry) req = true) :
    findMatchIdx table req = some 0 := by
  unfold findMatchIdx
  have h64 : List.range directorySize = 0 :: List.map Nat.succ (List.range 63) := by
    rw [show directorySize = 63 + 1 from rfl, List.range_succ_eq_map]
  rw [h64]
  exact List.find?_cons_of_pos _ h

theorem findMatchIdx_isSome_of_match (table : List DirEntry) (req : Request)
    (j : Nat) (hj : j < directorySize)
    (hm : entryMatches (table.getD j zeroEntry) req = true) :
    (findMatchIdx table req).isSome := by
  unfold findMatchIdx
  exact List.find?_isSome.mpr ⟨j, List.mem_range.mpr hj, hm⟩

set_option maxRecDepth 100000

theorem rootTable_length : rootTable.length = directorySize := by
  simp [rootTable, init_directory_table, zeroTable]

theorem fmtWrite_avail :
    ceil_div reqFile1.buffer_size CLUSTER_SIZE ≤
      ((List.range' 2 (CLUSTER_MAP_SIZE - 2)).filter fun i =>
        fmtSt.fat_table.getD i 0 == FAT32_FAT_EMPTY_ENTRY).length := by
  rw [show ceil_div reqFile1.buffer_size CLUSTER_SIZE = 1 from rfl]
  have h3 : (3 : Nat) ∈ (List.range' 2 (CLUSTER_MAP_SIZE - 2)).filter fun i =>
      fmtSt.fat_table.getD i 0 == FAT32_FAT_EMPTY_ENTRY :=
    List.mem_filter.mpr ⟨by decide, by decide⟩
  exact List.length_pos_of_mem h3

theorem write_file1_status : (write fmtSt fmtDisk reqFile1).status = 0 := by
  simp only [write]
  rw [if_neg (by decide), if_neg (by decide),
    if_neg (Nat.not_lt.mpr fmtWrite_avail)]

theorem write_file1_root_cluster :
    (write fmtSt fmtDisk reqFile1).disk.clusters ROOT_CLUSTER_NUMBER =
      Cluster.dirC rootTable := by
  simp only [write]
  rw [if_neg (by decide), if_neg (by decide),
    if_neg (Nat.not_lt.mpr fmtWrite_avail)]
  simp only [Disk.setCluster]
  rw [if_neg (by decide),
    if_pos (show ROOT_CLUSTER_NUMBER = reqFile1.parent_cluster_number from rfl)]
  rw [show asDirTable (fmtDisk.clusters reqFile1.parent_cluster_number) =
    rootTable from rfl]
  rw [List.set_eq_of_length_le (le_of_eq rootTable_length)]

theorem read_after_write_file1 :
    (read (write fmtSt fmtDisk reqFile1).state
      (write fmtSt fmtDisk reqFile1).disk reqFile1).status = 3 := by
  have hp : reqFile1.parent_cluster_number = ROOT_CLUSTER_NUMBER := rfl
  have hm : findMatchIdx rootTable reqFile1 = none := by decide
  simp only [read, hp, write_file1_root_cluster, asDirTable, hm]
  rw [if_neg (by decide)]

theorem rootTable_no_match : ∀ j, j < directorySize →
    entryMatches (rootTable.getD j zeroEntry) reqFile1 = false := by decide

/-! The claim theorems. -/

/-- C1: the round-trip property fails in the code.  On a freshly
formatted filesystem, `write` of the one-byte payload `FILE1.TXT` under
the root returns status 0, but the subsequent `read` with the same key,
the same parent cluster and ample buffer capacity returns 3 (not found)
instead of 0 with the payload: the new directory entry was stored at the
out-of-bounds slot index `directorySize` and is not part of the persisted
directory cluster. -/
theorem c1_write_read_roundtrip_fails :
    (write fmtSt fmtDisk reqFile1).status = 0 ∧
    (read (write fmtSt fmtDisk reqFile1).state
      (write fmtSt fmtDisk reqFile1).disk reqFile1).status = 3 :=
  ⟨write_file1_status, read_after_write_file1⟩

/-- C2: the new-entry store of `write` is out of bounds.  The slot index
the code stores at is the constant `directorySize`, which is not below
the table's slot count, so after a successful write the persisted parent
table is byte-for-byte unchanged and no slot in it matches the key just
written. -/
theorem c2_write_slot_store_out_of_bounds :
    (write fmtSt fmtDisk reqFile1).status = 0 ∧
    ¬ directorySize < (asDirTable (fmtDisk.clusters ROOT_CLUSTER_NUMBER)).length ∧
    asDirTable ((write fmtSt fmtDisk reqFile1).disk.clusters ROOT_CLUSTER_NUMBER) =
      asDirTable (fmtDisk.clusters ROOT_CLUSTER_NUMBER) ∧
    ∀ j, j < directorySize →
      entryMatches ((asDirTable ((write fmtSt fmtDisk reqFile1).disk.clusters
        ROOT_CLUSTER_NUMBER)).getD j zeroEntry) reqFile1 = false := by
  refine ⟨write_file1_status, ?_, ?_, ?_⟩
  · rw [show asDirTable (fmtDisk.clusters ROOT_CLUSTER_NUMBER) = rootTable from
      rfl, rootTable_length]
    exact lt_irrefl _
  · rw [write_file1_root_cluster]
    rfl
  · intro j hj
    rw [write_file1_root_cluster]
    exact rootTable_no_match j hj

/-- C3 counterexample: the entry scan starts at slot 0, so a request
whose name and extension bytes equal the descriptor slot 0's is matched
at slot 0; `read_directory` on such a request returns 0 (descending into
slot 0's parent back-reference) rather than 2 (not found), which the
claim would require since no user slot 1..N matches. -/
theorem c3_slot0_match_counterexample :
    entryMatches (tableSlot0A.getD 0 zeroEntry) reqNameA = true ∧
    findMatchIdx tableSlot0A reqNameA = some 0 ∧
    (read_directory fmtSt diskSlot0A reqNameA).status = 0 ∧
    (read_directory fmtSt diskSlot0A reqNameA).status ≠ 2 := by
  decide

/-- C3 amended: the entry scan considers slots 0..N-1 including slot 0,
and returns the first slot whose name and extension bytes equal the
request's; in particular whenever the request's bytes equal slot 0's, the
scan returns slot 0 itself. -/
theorem c3_scan_considers_slot0 (table : List DirEntry) (req : Request)
    (h : entryMatches (table.getD 0 zeroEntry) req = true) :
    findMatchIdx table req = some 0 := by
  unfold findMatchIdx
  have h64 : List.range directorySize = 0 :: List.map Nat.succ (List.range 63) := by
    rw [show directorySize = 63 + 1 from rfl, List.range_succ_eq_map]
  rw [h64]
  exact List.find?_cons_of_pos _ h

/-- Witness for C3 amended: a concrete table whose slot 0 bytes equal the
request's is matched at slot 0. -/
theorem c3_scan_considers_slot0_witness :
    findMatchIdx tableSlot0A reqNameA = some 0 :=
  c3_scan_considers_slot0 tableSlot0A reqNameA (by decide)

/-- C4 counterexample: on a FAT with no `Free` cluster at all, a `write`
with `buffer_size == 0` still returns status 0 (the needed-cluster count
is 0, so the space check passes), and instead of claiming a cluster that
was `Free`, it overwrites the FAT entry of cluster 0 — the reserved
sentinel, which was not `Free` — with `EndOfChain`. -/
theorem c4_no_free_cluster_counterexample :
    (write stFull fmtDisk reqDir1).status = 0 ∧
    (∀ c, c < CLUSTER_MAP_SIZE → fullFat.getD c 0 ≠ FAT32_FAT_EMPTY_ENTRY) ∧
    fullFat.getD 0 0 = CLUSTER_0_VALUE ∧
    (write stFull fmtDisk reqDir1).state.fat_table.getD 0 0 =
      FAT32_FAT_END_OF_FILE := by
  decide

/-- C7: every rejected call leaves the cached FAT and the disk exactly as
they were: each of the four operations, whenever its status is nonzero,
returns the caller's FAT cache and disk unchanged (no cluster or block
write is issued on any rejected path). -/
theorem c7_rejected_calls_preserve_state (st : DriverState) (disk : Disk)
    (req : Request) :
    ((read_directory st disk req).status ≠ 0 →
      (read_directory st disk req).state.fat_table = st.fat_table ∧
      (read_directory st disk req).disk = disk) ∧
    ((read st disk req).status ≠ 0 →
      (read st disk req).state.fat_table = st.fat_table ∧
      (read st disk req).disk = disk) ∧
    ((write st disk req).status ≠ 0 →
      (write st disk req).state.fat_table = st.fat_table ∧
      (write st disk req).disk = disk) ∧
    ((delete st disk req).status ≠ 0 →
      (delete st disk req).state.fat_table = st.fat_table ∧
      (delete st disk req).disk = disk) := by
  refine ⟨?_, ?_, ?_, ?_⟩
  · simp only [read_directory]
    split
    · exact fun _ => ⟨rfl, rfl⟩
    · split
      · split
        · exact fun _ => ⟨rfl, rfl⟩
        · exact fun _ => ⟨rfl, rfl⟩
      · exact fun _ => ⟨rfl, rfl⟩
  · simp only [read]
    split
    · exact fun _ => ⟨rfl, rfl⟩
    · split
      · split
        · exact fun _ => ⟨rfl, rfl⟩
        · split
          · exact fun _ => ⟨rfl, rfl⟩
          · intro h
            exact absurd rfl h
      · exact fun _ => ⟨rfl, rfl⟩
  · simp only [write]
    split
    · exact fun _ => ⟨rfl, rfl⟩
    · split
      · exact fun _ => ⟨rfl, rfl⟩
      · split
        · exact fun _ => ⟨rfl, rfl⟩
        · intro h
          exact absurd rfl h
  · simp only [delete]
    split
    · exact fun _ => ⟨rfl, rfl⟩
    · split
      · split
        · exact fun _ => ⟨rfl, rfl⟩
        · intro h
          exact absurd rfl h
      · exact fun _ => ⟨rfl, rfl⟩

/-- Witness for C7: concrete rejected calls (a lookup of a missing name,
a read of a missing name, a write of an already-existing key, and a
delete of a missing name) leave the formatted state untouched. -/
theorem c7_rejected_calls_preserve_state_witness :
    ((read_directory fmtSt fmtDisk reqFile1).state.fat_table = fmtSt.fat_table ∧
      (read_directory fmtSt fmtDisk reqFile1).disk = fmtDisk) ∧
    ((read fmtSt fmtDisk reqFile1).state.fat_table = fmtSt.fat_table ∧
      (read fmtSt fmtDisk reqFile1).disk = fmtDisk) ∧
    ((write fmtSt diskSlot0A reqNameA).state.fat_table = fmtSt.fat_table ∧
      (write fmtSt diskSlot0A reqNameA).disk = diskSlot0A) ∧
    ((delete fmtSt fmtDisk reqFile1).state.fat_table = fmtSt.fat_table ∧
      (delete fmtSt fmtDisk reqFile1).disk = fmtDisk) :=
  ⟨(c7_rejected_calls_preserve_state fmtSt fmtDisk reqFile1).1 (by decide),
   (c7_rejected_calls_preserve_state fmtSt fmtDisk reqFile1).2.1 (by decide),
   (c7_rejected_calls_preserve_state fmtSt diskSlot0A reqNameA).2.2.1 (by decide),
   (c7_rejected_calls_preserve_state fmtSt fmtDisk reqFile1).2.2.2 (by decide)⟩

/-- C10: a slot counts as a match exactly when its raw name and extension
bytes equal the request's — the occupancy flag (and every other field) is
never consulted — and consequently a request whose name and extension are
all zero bytes matches any empty or tombstoned slot, so the scan does not
report not-found: `read_directory` cannot return 2 on such a request when
the parent is valid. -/
theorem c10_match_ignores_occupancy :
    (∀ (e e' : DirEntry) (req : Request), e.name = e'.name → e.ext = e'.ext →
      entryMatches e req = entryMatches e' req) ∧
    (∀ (table : List DirEntry) (req : Request) (j : Nat), j < directorySize →
      (table.getD j zeroEntry).name.take 8 = req.name.take 8 →
      (table.getD j zeroEntry).ext.take 3 = req.ext.take 3 →
      (findMatchIdx table req).isSome) ∧
    (∀ (st : DriverState) (disk : Disk) (req : Request) (j : Nat),
      ((asDirTable (disk.clusters req.parent_cluster_number)).getD 0
        zeroEntry).attr = ATTR_SUBDIRECTORY →
      j < directorySize →
      ((asDirTable (disk.clusters req.parent_cluster_number)).getD j
        zeroEntry).name.take 8 = req.name.take 8 →
      ((asDirTable (disk.clusters req.parent_cluster_number)).getD j
        zeroEntry).ext.take 3 = req.ext.take 3 →
      (read_directory st disk req).status ≠ 2) := by
  refine ⟨?_, ?_, ?_⟩
  · intro e e' req hn he
    unfold entryMatches
    rw [hn, he]
  · intro table req j hj hn he
    exact findMatchIdx_isSome_of_match table req j hj
      (by unfold entryMatches; rw [hn, he]; simp)
  · intro st disk req j hp hj hn he
    have hs := findMatchIdx_isSome_of_match
      (asDirTable (disk.clusters req.parent_cluster_number)) req j hj
      (by unfold entryMatches; rw [hn, he]; simp)
    simp only [read_directory]
    split
    · simp_all
    · split
      · split
        · simp
        · simp
      · rename_i hnone
        rw [hnone] at hs
        simp at hs

/-- Witness for C10: on the formatted root (whose slots 1..63 are
all-zero) the all-zero-key request is matched (at a tombstone-shaped
slot) and `read_directory` does not answer not-found. -/
theorem c10_match_ignores_occupancy_witness :
    entryMatches zeroEntry reqZeroKey = entryMatches zeroEntry reqZeroKey ∧
    (findMatchIdx rootTable reqZeroKey).isSome ∧
    (read_directory fmtSt fmtDisk reqZeroKey).status ≠ 2 :=
  ⟨c10_match_ignores_occupancy.1 zeroEntry zeroEntry reqZeroKey rfl rfl,
   c10_match_ignores_occupancy.2.1 rootTable reqZeroKey 1 (by decide)
     (by decide) (by decide),
   c10_match_ignores_occupancy.2.2 fmtSt fmtDisk reqZeroKey 1 (by decide)
     (by decide) (by decide) (by decide)⟩

/-- C9: on an unformatted device `is_empty_storage` reports true (so the
spec's `is_formatted()` is false); after `initialize_filesystem_fat32`
runs (taking the format path), the boot signature is in place, the
persisted FAT (cluster 1) equals the cache and holds the two reserved
sentinels, `EndOfChain` for the root cluster, and `Free` for every
remaining cluster, and the root cluster holds a directory table whose
slot 0 is a subdirectory entry whose parent back-reference is the root
cluster itself. -/
theorem c9_format_initializes_fat_and_root (st : DriverState) (disk : Disk)
    (hboot : disk.boot ≠ fs_signature)
    (hlen : st.fat_table.length = CLUSTER_MAP_SIZE) :
    is_empty_storage disk = true ∧
    is_empty_storage (initialize_filesystem_fat32 st disk).2 = false ∧
    (initialize_filesystem_fat32 st disk).2.clusters FAT_CLUSTER_NUMBER =
      Cluster.fatC (initialize_filesystem_fat32 st disk).1.fat_table ∧
    (initialize_filesystem_fat32 st disk).1.fat_table.getD 0 0 = CLUSTER_0_VALUE ∧
    (initialize_filesystem_fat32 st disk).1.fat_table.getD 1 0 = CLUSTER_1_VALUE ∧
    (initialize_filesystem_fat32 st disk).1.fat_table.getD ROOT_CLUSTER_NUMBER 0 =
      FAT32_FAT_END_OF_FILE ∧
    (∀ j, 3 ≤ j → j < CLUSTER_MAP_SIZE →
      (initialize_filesystem_fat32 st disk).1.fat_table.getD j 0 =
        FAT32_FAT_EMPTY_ENTRY) ∧
    (initialize_filesystem_fat32 st disk).2.clusters ROOT_CLUSTER_NUMBER =
      Cluster.dirC rootTable ∧
    (rootTable.getD 0 zeroEntry).attr = ATTR_SUBDIRECTORY ∧
    clusterOf (rootTable.getD 0 zeroEntry) = ROOT_CLUSTER_NUMBER ∧
    (rootTable.getD 0 zeroEntry).user_attribute = UATTR_NOT_EMPTY := by
  have hempty : is_empty_storage disk = true := by
    simp [is_empty_storage, hboot]
  have hinit : initialize_filesystem_fat32 st disk = create_fat32 st disk := by
    simp [initialize_filesystem_fat32, hempty]
  rw [hinit]
  have hcm : CLUSTER_MAP_SIZE = 512 := rfl
  have hnm : ∀ m : Nat, m < 3 → m ∉ List.range' 3 (CLUSTER_MAP_SIZE - 3) := by
    intro m hm h
    rw [List.mem_range'_1] at h
    omega
  refine ⟨hempty, ?_, ?_, ?_, ?_, ?_, ?_, ?_, by decide, by decide, by decide⟩
  · simp [create_fat32, is_empty_storage, Disk.setCluster]
  · simp [create_fat32, Disk.setCluster, FAT_CLUSTER_NUMBER, ROOT_CLUSTER_NUMBER]
  · simp only [create_fat32]
    rw [getD_foldl_set_not_mem _ _ _ _ _ (hnm 0 (by decide))]
    rw [getD_set_ne _ _ _ _ _ (by decide), getD_set_ne _ _ _ _ _ (by decide),
      getD_set_self _ _ _ _ (by rw [hlen, hcm]; decide)]
  · simp only [create_fat32]
    rw [getD_foldl_set_not_mem _ _ _ _ _ (hnm 1 (by decide))]
    rw [getD_set_ne _ _ _ _ _ (by decide),
      getD_set_self _ _ _ _ (by simp only [List.length_set, hlen, hcm]; decide)]
  · simp only [create_fat32]
    rw [getD_foldl_set_not_mem _ _ _ _ _ (hnm ROOT_CLUSTER_NUMBER (by decide))]
    rw [getD_set_self _ _ _ _
      (by simp only [List.length_set, hlen, hcm]; decide)]
  · intro j h3 hj
    rw [hcm] at hj
    simp only [create_fat32]
    rw [getD_foldl_set_mem _ _ _ _ _
      (List.mem_range'_1.mpr ⟨h3, by rw [hcm]; omega⟩)
      (by simp only [List.length_set, hlen, hcm]; omega)]
  · simp [create_fat32, Disk.setCluster, rootTable]

/-- Witness for C9: the concrete all-zero device is reported empty by the
formatting path. -/
theorem c9_format_initializes_fat_and_root_witness :
    is_empty_storage freshDisk = true ∧
    is_empty_storage (initialize_filesystem_fat32 st0 freshDisk).2 = false :=
  ⟨(c9_format_initializes_fat_and_root st0 freshDisk (by decide) (by decide)).1,
   (c9_format_initializes_fat_and_root st0 freshDisk (by decide) (by decide)).2.1⟩

/-- C4 amended: a directory-creating write (`buffer_size == 0`) that
returns 0 claims exactly one previously-`Free` cluster — provided at
least one allocatable cluster is `Free` (the code never checks this:
`needed` is 0 for directories, so with a full FAT it would claim the
reserved cluster 0 instead, see the counterexample) - marking it
`EndOfChain`, writing there a fresh directory table whose slot 0 is a
subdirectory descriptor backing-referencing the requesting call's parent
cluster, and changing no other FAT entry. -/
theorem c4_dir_create_claims_one_free_cluster (st : DriverState) (disk : Disk)
    (req : Request)
    (hlen : st.fat_table.length = CLUSTER_MAP_SIZE)
    (hparent : ((asDirTable (disk.clusters req.parent_cluster_number)).getD 0
      zeroEntry).attr = ATTR_SUBDIRECTORY)
    (hmatch : findMatchIdx (asDirTable (disk.clusters req.parent_cluster_number))
      req = none)
    (hbs : req.buffer_size = 0)
    (hpar32 : req.parent_cluster_number < 4294967296)
    (hparfat : st.fat_table.getD req.parent_cluster_number 0 ≠
      FAT32_FAT_EMPTY_ENTRY)
    (hfree : ∃ c, 2 ≤ c ∧ c < CLUSTER_MAP_SIZE ∧
      st.fat_table.getD c 0 = FAT32_FAT_EMPTY_ENTRY) :
    (write st disk req).status = 0 ∧
    ∃ c, 2 ≤ c ∧ c < CLUSTER_MAP_SIZE ∧
      st.fat_table.getD c 0 = FAT32_FAT_EMPTY_ENTRY ∧
      (write st disk req).state.fat_table.getD c 0 = FAT32_FAT_END_OF_FILE ∧
      (∀ j d, j ≠ c → (write st disk req).state.fat_table.getD j d =
        st.fat_table.getD j d) ∧
      (write st disk req).disk.clusters c =
        Cluster.dirC (init_directory_table zeroTable req.name
          req.parent_cluster_number) ∧
      ((init_directory_table zeroTable req.name
        req.parent_cluster_number).getD 0 zeroEntry).attr = ATTR_SUBDIRECTORY ∧
      clusterOf ((init_directory_table zeroTable req.name
        req.parent_cluster_number).getD 0 zeroEntry) =
        req.parent_cluster_number ∧
      ((init_directory_table zeroTable req.name
        req.parent_cluster_number).getD 0 zeroEntry).user_attribute =
        UATTR_NOT_EMPTY := by
  have hcm : CLUSTER_MAP_SIZE = 512 := rfl
  obtain ⟨c0, hc0a, hc0b, hc0c⟩ := hfree
  have hsome : (((List.range' 2 (CLUSTER_MAP_SIZE - 2)).find? fun i =>
      st.fat_table.getD i 0 == FAT32_FAT_EMPTY_ENTRY)).isSome :=
    List.find?_isSome.mpr ⟨c0,
      List.mem_range'_1.mpr ⟨hc0a, by rw [hcm] at hc0b; rw [hcm]; omega⟩,
      by simp only [hc0c, beq_self_eq_true]⟩
  cases hfind : ((List.range' 2 (CLUSTER_MAP_SIZE - 2)).find? fun i =>
      st.fat_table.getD i 0 == FAT32_FAT_EMPTY_ENTRY) with
  | none =>
    rw [hfind] at hsome
    simp at hsome
  | some e =>
    have hpe : st.fat_table.getD e 0 = FAT32_FAT_EMPTY_ENTRY := by
      have h := List.find?_some hfind
      exact beq_iff_eq.mp h
    have hmem := List.mem_range'_1.mp (List.mem_of_find?_eq_some hfind)
    have he2 : 2 ≤ e := hmem.1
    have helt : e < CLUSTER_MAP_SIZE := by
      have h2 := hmem.2
      rw [hcm] at h2 ⊢
      omega
    have hene : e ≠ req.parent_cluster_number := by
      intro h
      rw [h] at hpe
      exact hparfat hpe
    have hef : e ≠ FAT_CLUSTER_NUMBER := by
      intro h
      rw [h] at he2
      exact absurd he2 (by decide)
    have harith : req.parent_cluster_number % 65536 +
        req.parent_cluster_number / 65536 % 65536 * 65536 =
        req.parent_cluster_number := by
      have h1 : req.parent_cluster_number % 65536 +
          req.parent_cluster_number / 65536 % 65536 * 65536 =
          req.parent_cluster_number % (65536 * 65536) := by
        rw [Nat.mod_mul]
        ring
      rw [h1]
      exact Nat.mod_eq_of_lt (by omega)
    have hw : write st disk req =
        ⟨0,
         { st with
           dir_table_buf :=
             (asDirTable (disk.clusters req.parent_cluster_number)).set
               directorySize
               { name := req.name.take 8, ext := req.ext.take 3,
                 attr := ATTR_SUBDIRECTORY, user_attribute := UATTR_NOT_EMPTY,
                 cluster_low := e % 65536, cluster_high := e / 65536 % 65536,
                 filesize := req.buffer_size },
           fat_table := st.fat_table.set e FAT32_FAT_END_OF_FILE },
         (((disk.setCluster e
             (Cluster.dirC (init_directory_table zeroTable req.name
               req.parent_cluster_number))).setCluster req.parent_cluster_number
           (Cluster.dirC ((asDirTable (disk.clusters
             req.parent_cluster_number)).set directorySize
             { name := req.name.take 8, ext := req.ext.take 3,
               attr := ATTR_SUBDIRECTORY, user_attribute := UATTR_NOT_EMPTY,
               cluster_low := e % 65536, cluster_high := e / 65536 % 65536,
               filesize := req.buffer_size }))).setCluster FAT_CLUSTER_NUMBER
           (Cluster.fatC (st.fat_table.set e FAT32_FAT_END_OF_FILE)))⟩ := by
      simp only [write, hmatch, hfind, hbs, Option.isSome_none, Option.getD_some]
      rw [if_neg (by rw [hparent]; exact fun h => h rfl)]
      norm_num [ceil_div]
    refine ⟨by rw [hw], e, he2, helt, hpe, ?_, ?_, ?_, ?_, ?_, ?_⟩
    · rw [hw]
      exact getD_set_self _ _ _ _ (by rw [hlen]; exact helt)
    · intro j d hj
      rw [hw]
      exact getD_set_ne _ _ _ _ _ (Ne.symm hj)
    · rw [hw]
      simp [Disk.setCluster, hef, hene]
    · simp only [init_directory_table]
      rw [getD_set_self _ _ _ _ (by decide)]
    · simp only [init_directory_table, clusterOf]
      rw [getD_set_self _ _ _ _ (by decide)]
      exact harith
    · simp only [init_directory_table]
      rw [getD_set_self _ _ _ _ (by decide)]

/-- Witness for C4 amended: creating `DIR1` under the formatted root
succeeds (cluster 3 is the free cluster it claims). -/
theorem c4_dir_create_claims_one_free_cluster_witness :
    (write fmtSt fmtDisk reqDir1).status = 0 :=
  (c4_dir_create_claims_one_free_cluster fmtSt fmtDisk reqDir1 (by decide)
    (by decide) (by decide) rfl (by decide) (by decide)
    ⟨3, by decide, by decide, by decide⟩).1

/-- C5: a successful file write (`buffer_size > 0`) claims exactly the
`k = ceil(buffer_size / cluster_size)` lowest-numbered clusters whose FAT
entry is `Free` (the claimed list is the length-`k` ascending prefix of
the free list, every element of which was `Free`, and every free cluster
left unclaimed is larger than every claimed one), chains them in scan
order — each claimed cluster's entry points at the next claimed cluster
and the last claimed cluster's entry becomes `EndOfChain` — and leaves
every other FAT entry unchanged. -/
theorem c5_write_allocation_first_fit (st : DriverState) (disk : Disk)
    (req : Request)
    (hlen : st.fat_table.length = CLUSTER_MAP_SIZE)
    (hparent : ((asDirTable (disk.clusters req.parent_cluster_number)).getD 0
      zeroEntry).attr = ATTR_SUBDIRECTORY)
    (hmatch : findMatchIdx (asDirTable (disk.clusters req.parent_cluster_number))
      req = none)
    (hbs : ¬ req.buffer_size = 0)
    (havail : ceil_div req.buffer_size CLUSTER_SIZE ≤
      ((List.range' 2 (CLUSTER_MAP_SIZE - 2)).filter fun i =>
        st.fat_table.getD i 0 == FAT32_FAT_EMPTY_ENTRY).length) :
    (write st disk req).status = 0 ∧
    (let claimed := (freeClusters st.fat_table).take
        (ceil_div req.buffer_size CLUSTER_SIZE)
     claimed.length = ceil_div req.buffer_size CLUSTER_SIZE ∧
     List.Sorted (· < ·) claimed ∧
     (∀ c ∈ claimed, st.fat_table.getD c 0 = FAT32_FAT_EMPTY_ENTRY) ∧
     (∀ c ∈ freeClusters st.fat_table, c ∉ claimed →
       ∀ c2 ∈ claimed, c2 < c) ∧
     (∀ j d, j ∉ claimed →
       (write st disk req).state.fat_table.getD j d = st.fat_table.getD j d) ∧
     (∀ idx, idx + 1 < claimed.length →
       (write st disk req).state.fat_table.getD (claimed.getD idx 0) 0 =
         claimed.getD (idx + 1) 0) ∧
     (∀ idx, idx + 1 = claimed.length →
       (write st disk req).state.fat_table.getD (claimed.getD idx 0) 0 =
         FAT32_FAT_END_OF_FILE)) := by
  set F := freeClusters st.fat_table with hF
  set k := ceil_div req.buffer_size CLUSTER_SIZE with hkdef
  have hkle : k ≤ F.length :=
    le_trans havail (avail_le_freeClusters_length st.fat_table)
  have hnodup : (F.take k).Nodup :=
    (freeClusters_nodup st.fat_table).sublist (List.take_sublist k F)
  have hmemF : ∀ c ∈ F.take k, c ∈ F := fun c hc => List.mem_of_mem_take hc
  have hfreec : ∀ c ∈ F.take k, st.fat_table.getD c 0 = FAT32_FAT_EMPTY_ENTRY :=
    fun c hc => (mem_freeClusters.mp (hmemF c hc)).2
  have hltc : ∀ c ∈ F.take k, c < st.fat_table.length := fun c hc => by
    rw [hlen]
    exact (mem_freeClusters.mp (hmemF c hc)).1
  have hfat : (write st disk req).state.fat_table =
      (allocChain st.fat_table disk req.buf 0 (F.take k)).1 := by
    simp only [write, hmatch, Option.isSome_none]
    rw [if_neg (by rw [hparent]; exact fun h => h rfl),
      if_neg Bool.false_ne_true, if_neg (Nat.not_lt.mpr havail), if_neg hbs]
  have hstat : (write st disk req).status = 0 := by
    simp only [write, hmatch, Option.isSome_none]
    rw [if_neg (by rw [hparent]; exact fun h => h rfl),
      if_neg Bool.false_ne_true, if_neg (Nat.not_lt.mpr havail)]
  obtain ⟨hlinks, hlast⟩ := allocChain_fat_links (F.take k) st.fat_table disk
    req.buf 0 hnodup hltc
  refine ⟨hstat, List.length_take_of_le hkle,
    (freeClusters_sorted st.fat_table).sublist (List.take_sublist k F),
    hfreec, ?_, ?_, ?_, ?_⟩
  · intro c hcF hcn c2 hc2
    have hsplit : F.take k ++ F.drop k = F := List.take_append_drop k F
    have hpw : (F.take k ++ F.drop k).Pairwise (· < ·) := by
      rw [hsplit]
      exact freeClusters_sorted st.fat_table
    have hcd : c ∈ F.drop k := by
      rcases List.mem_append.mp (by rw [hsplit]; exact hcF) with h | h
      · exact absurd h hcn
      · exact h
    exact (List.pairwise_append.mp hpw).2.2 c2 hc2 c hcd
  · intro j d hj
    rw [hfat]
    exact allocChain_fat_not_mem (F.take k) st.fat_table disk req.buf 0 j d hj
  · intro idx h
    rw [hfat]
    exact hlinks idx h
  · intro idx h
    rw [hfat]
    exact hlast idx h

/-- Witness for C5: writing the one-byte `FILE1.TXT` on the formatted
state succeeds (claiming cluster 3, the lowest free cluster). -/
theorem c5_write_allocation_first_fit_witness :
    (write fmtSt fmtDisk reqFile1).status = 0 ∧
    ((freeClusters fmtSt.fat_table).take
      (ceil_div reqFile1.buffer_size CLUSTER_SIZE)).length =
      ceil_div reqFile1.buffer_size CLUSTER_SIZE :=
  ⟨(c5_write_allocation_first_fit fmtSt fmtDisk reqFile1 (by decide) (by decide)
      (by decide) (by decide) fmtWrite_avail).1,
   (c5_write_allocation_first_fit fmtSt fmtDisk reqFile1 (by decide) (by decide)
      (by decide) (by decide) fmtWrite_avail).2.1⟩

/-- C6: a successful read of a file entry whose cluster chain is
well-formed of length exactly `ceil(filesize / cluster_size)` copies
exactly those whole clusters, in chain order, into the caller's buffer
(`out` is the concatenation of the chain's clusters, so the copied byte
count is `ceil(filesize / cluster_size) * cluster_size` — trailing bytes
of the last cluster beyond `filesize` are copied rather than
truncated). -/
theorem c6_read_copies_whole_clusters (st : DriverState) (disk : Disk)
    (req : Request) (i : Nat) (L : List Nat)
    (hparent : ((asDirTable (disk.clusters req.parent_cluster_number)).getD 0
      zeroEntry).attr = ATTR_SUBDIRECTORY)
    (hidx : findMatchIdx (asDirTable (disk.clusters req.parent_cluster_number))
      req = some i)
    (hfile : ((asDirTable (disk.clusters req.parent_cluster_number)).getD i
      zeroEntry).attr ≠ ATTR_SUBDIRECTORY)
    (hbuf : ((asDirTable (disk.clusters req.parent_cluster_number)).getD i
      zeroEntry).filesize ≤ req.buffer_size)
    (hchain : isChain st.fat_table L)
    (hhead : L.headD 0 = clusterOf ((asDirTable (disk.clusters
      req.parent_cluster_number)).getD i zeroEntry))
    (hblt : ∀ c ∈ L, c < CLUSTER_MAP_SIZE)
    (hfuel : L.length ≤ CLUSTER_MAP_SIZE)
    (hlenL : L.length = ceil_div ((asDirTable (disk.clusters
      req.parent_cluster_number)).getD i zeroEntry).filesize CLUSTER_SIZE)
    (hbytes : ∀ c ∈ L, (asRaw (disk.clusters c)).length = CLUSTER_SIZE) :
    (read st disk req).status = 0 ∧
    (read st disk req).out = (L.map fun c => asRaw (disk.clusters c)).flatten ∧
    (read st disk req).out.length =
      ceil_div ((asDirTable (disk.clusters req.parent_cluster_number)).getD i
        zeroEntry).filesize CLUSTER_SIZE * CLUSTER_SIZE := by
  have hloop := readChainLoop_eq_map L st.fat_table disk CLUSTER_MAP_SIZE hchain
    hblt hfuel
  rw [hhead] at hloop
  have hread : read st disk req =
      ⟨0,
       { st with
         dir_table_buf := asDirTable (disk.clusters req.parent_cluster_number) },
       disk,
       (readChainLoop st.fat_table disk
         (clusterOf ((asDirTable (disk.clusters req.parent_cluster_number)).getD
           i zeroEntry)) CLUSTER_MAP_SIZE).flatten⟩ := by
    simp only [read, hidx]
    rw [if_neg (by rw [hparent]; exact fun h => h rfl), if_neg hfile,
      if_neg (Nat.not_lt.mpr hbuf)]
  have hout : (read st disk req).out =
      (L.map fun c => asRaw (disk.clusters c)).flatten := by
    rw [hread]
    show (readChainLoop st.fat_table disk
      (clusterOf ((asDirTable (disk.clusters req.parent_cluster_number)).getD
        i zeroEntry)) CLUSTER_MAP_SIZE).flatten =
      (L.map fun c => asRaw (disk.clusters c)).flatten
    rw [hloop]
  refine ⟨by rw [hread], hout, ?_⟩
  rw [hout, List.length_flatten, List.map_map]
  have hconst : L.map (List.length ∘ fun c => asRaw (disk.clusters c)) =
      List.replicate L.length CLUSTER_SIZE := by
    rw [← List.map_const' L CLUSTER_SIZE]
    exact List.map_congr_left fun c hc => hbytes c hc
  rw [hconst, List.sum_replicate, smul_eq_mul, ← hlenL]

/-- Witness for C6: reading the 5-byte one-cluster `FILE1.TXT` returns 0
and copies the whole 2048-byte cluster. -/
theorem c6_read_copies_whole_clusters_witness :
    (read fileSt fileDisk reqRead5).status = 0 ∧
    (read fileSt fileDisk reqRead5).out.length =
      ceil_div ((asDirTable (fileDisk.clusters
        reqRead5.parent_cluster_number)).getD 1 zeroEntry).filesize
        CLUSTER_SIZE * CLUSTER_SIZE :=
  ⟨(c6_read_copies_whole_clusters fileSt fileDisk reqRead5 1 [3] (by decide)
      (by decide) (by decide) (by decide) (by unfold isChain; decide)
      (by decide) (by intro c hc; simp at hc; subst hc; decide) (by decide)
      (by decide)
      (by intro c hc; simp at hc; subst hc; simp [fileDisk, asRaw, FAT_CLUSTER_NUMBER, ROOT_CLUSTER_NUMBER])).1,
   (c6_read_copies_whole_clusters fileSt fileDisk reqRead5 1 [3] (by decide)
      (by decide) (by decide) (by decide) (by unfold isChain; decide)
      (by decide) (by intro c hc; simp at hc; subst hc; decide) (by decide)
      (by decide)
      (by intro c hc; simp at hc; subst hc; simp [fileDisk, asRaw, FAT_CLUSTER_NUMBER, ROOT_CLUSTER_NUMBER])).2.2⟩

/-- C8: a delete that matches an entry and passes the non-empty-directory
guard returns 0 and: the matched slot is tombstoned in the persisted
parent table (occupancy cleared, name and extension zeroed), every
cluster of the entry's chain is reset to `Free` in the resulting FAT, no
FAT entry outside the chain changes, and both the parent directory table
and the FAT are persisted to disk. -/
theorem c8_delete_frees_chain_and_tombstones (st : DriverState) (disk : Disk)
    (req : Request) (i : Nat) (L : List Nat)
    (hlen : st.fat_table.length = CLUSTER_MAP_SIZE)
    (hparent : ((asDirTable (disk.clusters req.parent_cluster_number)).getD 0
      zeroEntry).attr = ATTR_SUBDIRECTORY)
    (hidx : findMatchIdx (asDirTable (disk.clusters req.parent_cluster_number))
      req = some i)
    (hguard : ¬(((asDirTable (disk.clusters req.parent_cluster_number)).getD i
        zeroEntry).attr = ATTR_SUBDIRECTORY ∧
      ((List.range' 1 (directorySize - 1)).any fun j =>
        ((asDirTable (disk.clusters (clusterOf ((asDirTable (disk.clusters
          req.parent_cluster_number)).getD i zeroEntry)))).getD j
            zeroEntry).user_attribute == UATTR_NOT_EMPTY) = true))
    (hchain : isChain st.fat_table L)
    (hnodup : L.Nodup)
    (hhead : L.headD 0 = clusterOf ((asDirTable (disk.clusters
      req.parent_cluster_number)).getD i zeroEntry))
    (hblt : ∀ c ∈ L, c < CLUSTER_MAP_SIZE)
    (hfuel : L.length ≤ CLUSTER_MAP_SIZE)
    (hpar1 : req.parent_cluster_number ≠ FAT_CLUSTER_NUMBER) :
    (delete st disk req).status = 0 ∧
    (delete st disk req).disk.clusters req.parent_cluster_number =
      Cluster.dirC ((asDirTable (disk.clusters req.parent_cluster_number)).set i
        { (asDirTable (disk.clusters req.parent_cluster_number)).getD i
            zeroEntry with
          user_attribute := 0,
          name := List.replicate 8 0,
          ext := List.replicate 3 0 }) ∧
    (delete st disk req).disk.clusters FAT_CLUSTER_NUMBER =
      Cluster.fatC (delete st disk req).state.fat_table ∧
    (∀ c ∈ L, (delete st disk req).state.fat_table.getD c 0 =
      FAT32_FAT_EMPTY_ENTRY) ∧
    (∀ j d, j ∉ L → (delete st disk req).state.fat_table.getD j d =
      st.fat_table.getD j d) := by
  obtain ⟨hfree1, hfree2⟩ := freeChainLoop_getD L st.fat_table CLUSTER_MAP_SIZE
    hchain hnodup hblt hlen hfuel
  rw [hhead] at hfree1 hfree2
  have hdel : delete st disk req =
      ⟨0,
       { st with
         dir_table_buf :=
           ((asDirTable (disk.clusters req.parent_cluster_number)).set i
             { (asDirTable (disk.clusters req.parent_cluster_number)).getD i
                 zeroEntry with
               user_attribute := 0,
               name := List.replicate 8 0,
               ext := List.replicate 3 0 }),
         fat_table := freeChainLoop st.fat_table
           (clusterOf ((asDirTable (disk.clusters
             req.parent_cluster_number)).getD i zeroEntry)) CLUSTER_MAP_SIZE },
       ((disk.setCluster req.parent_cluster_number
         (Cluster.dirC ((asDirTable (disk.clusters
           req.parent_cluster_number)).set i
           { (asDirTable (disk.clusters req.parent_cluster_number)).getD i
               zeroEntry with
             user_attribute := 0,
             name := List.replicate 8 0,
             ext := List.replicate 3 0 }))).setCluster FAT_CLUSTER_NUMBER
         (Cluster.fatC (freeChainLoop st.fat_table
           (clusterOf ((asDirTable (disk.clusters
             req.parent_cluster_number)).getD i zeroEntry))
           CLUSTER_MAP_SIZE)))⟩ := by
    simp only [delete, hidx]
    rw [if_neg (by rw [hparent]; exact fun h => h rfl), if_neg hguard]
  refine ⟨by rw [hdel], ?_, ?_, ?_, ?_⟩
  · rw [hdel]
    simp [Disk.setCluster, hpar1]
  · rw [hdel]
    simp [Disk.setCluster]
  · intro c hc
    rw [hdel]
    exact hfree1 c hc
  · intro j d hj
    rw [hdel]
    exact hfree2 j d hj

/-- Witness for C8: deleting the one-cluster `FILE1.TXT` returns 0 and
frees its cluster 3. -/
theorem c8_delete_frees_chain_and_tombstones_witness :
    (delete fileSt fileDisk reqRead5).status = 0 ∧
    (delete fileSt fileDisk reqRead5).state.fat_table.getD 3 0 =
      FAT32_FAT_EMPTY_ENTRY :=
  ⟨(c8_delete_frees_chain_and_tombstones fileSt fileDisk reqRead5 1 [3]
      (by decide) (by decide) (by decide) (by decide)
      (by unfold isChain; decide) (by decide) (by decide)
      (by intro c hc; simp at hc; subst hc; decide) (by decide) (by decide)).1,
   (c8_delete_frees_chain_and_tombstones fileSt fileDisk reqRead5 1 [3]
      (by decide) (by decide) (by decide) (by decide)
      (by unfold isChain; decide) (by decide) (by decide)
      (by intro c hc; simp at hc; subst hc; decide) (by decide)
      (by decide)).2.2.2.1 3 (by simp)⟩

end Fat32
